import Mathlib

/-!
Shallow embedding of src/CAFI_classification_cleanup.py, the CAFI land-cover
cleanup pipeline. Every stage of the pipeline is a per-pixel map-algebra
expression, so we model one pixel as a record of the values every input
raster takes at that pixel, and each derived layer of the script as a
function from the pixel record to its value.

Modelling conventions, matching the Earth Engine semantics the script uses:
  - img.eq / neq / lte / gte / lt / gt produce 0 or 1; And / Or combine them.
  - base.where(test, repl) replaces the base value wherever test is nonzero
    and leaves it unchanged elsewhere; it never fills masked base pixels.
  - unmask() turns a masked value into 0; the layers the script unmasks are
    modelled directly as total Nat-valued functions.
  - remap(fromCodes, toCodes) sends a value equal to fromCodes i to
    toCodes i and masks any value not present in fromCodes; we model a
    possibly-masked value as Option Nat and unmask as getD 0.
  - updateMask(m) masks wherever m is 0; together with the following
    unmask() it multiplies the 0 or 1 indicator by the 0 or 1 mask.
  - Spatial operations (clip to the study area, the 500 m focal_max
    dilation of the ESA mangrove layer) are not per-pixel: we consider
    pixels inside the clip geometries and carry the value of the dilated
    buffer mang_buffer at the pixel as an input field of the record.
  - The JRC water mosaic value is carried as water_area, with 0 standing
    for a pixel that is masked in every year (eq(2) and eq(3) followed by
    unmask() give 0 there, exactly as for an unmasked 0).
-/

namespace CAFI

/-- Generic Earth Engine remap: a value equal to the i-th element of the
first list becomes the i-th element of the second list; a value not present
in the first list becomes masked (none). First match wins. -/
def eeRemap : List Nat → List Nat → Nat → Option Nat
  | [], _, _ => none
  | _ :: _, [], _ => none
  | a :: f, b :: t, v => if v = a then some b else eeRemap f t v

/-- Remap followed by unmask(): a masked result becomes 0. -/
def eeRemapU (f t : List Nat) (v : Nat) : Nat := (eeRemap f t v).getD 0

/-- Values of every input raster at one pixel of the common grid. -/
structure Pix where
  /-- band class of cafi_classification_alos -/
  class2015 : Nat
  /-- band class of cafi_classification_no_alos -/
  class2015_no_alos : Nat
  /-- GHS BUILT layer value (ordinal 1..6) -/
  GHSbuiltup : Nat
  /-- tree cover percentage -/
  treecover2015 : Nat
  /-- NASA DEM elevation in metres -/
  dem : Nat
  /-- Gabon national land-cover value, 128 is its no-data sentinel -/
  gabon_os : Nat
  /-- country-code raster value -/
  countries_raster : Nat
  /-- JRC yearly-history mosaic waterClass: 2 seasonal, 3 permanent -/
  water_area : Nat
  /-- Annobon national land-cover value -/
  annobon : Nat
  /-- internal CAFI mangrove indicator -/
  mangroves : Nat
  /-- value at the pixel of the 500 m dilation of the ESA mangrove mask -/
  mang_buffer : Nat
deriving DecidableEq, Repr

/-! Stage 1: recode classes from SEPAL to Code DDD. -/

def class_values : List Nat := [1, 2, 3, 4, 5, 6, 7, 8, 9, 10, 11, 12, 13, 14, 15]

def reclass_values : List Nat := [1, 2, 3, 4, 7, 8, 9, 11, 12, 13, 14, 15, 16, 17, 18]

def classDDD (p : Pix) : Nat := eeRemapU class_values reclass_values p.class2015

def classDDD_no_alos (p : Pix) : Nat :=
  eeRemapU class_values reclass_values p.class2015_no_alos

/-! Stage 2: fix ALOS holes. -/

def alosholes (p : Pix) : Nat := (if classDDD p = 0 then 1 else 0) + 1

def classDDD_fill (p : Pix) : Nat :=
  if alosholes p = 2 then classDDD_no_alos p else classDDD p

/-! Stage 3: fix built-up area. The builtup remap has no unmask, so a GHS
value outside 1..6 stays masked and neither where-test can fire there. -/

def builtup (p : Pix) : Option Nat :=
  eeRemap [1, 2, 3, 4, 5, 6] [0, 0, 1, 1, 1, 1] p.GHSbuiltup

def class2015_fix (p : Pix) : Nat :=
  if builtup p = some 1 then 17 else classDDD_fill p

def built_wrong (p : Pix) : Option Nat :=
  (builtup p).map (fun b => if classDDD_fill p = 17 ∧ b ≠ 1 then 1 else 0)

def class2015_fix1 (p : Pix) : Nat :=
  if built_wrong p = some 1 then 15 else class2015_fix p

/-! Stage 4: apply tree cover for closed and open forest. -/

def claire (p : Pix) : Nat := if p.treecover2015 < 60 then 1 else 0

def dense (p : Pix) : Nat := if 60 ≤ p.treecover2015 then 1 else 0

def forest_to_split (p : Pix) : Nat :=
  if class2015_fix1 p = 2 ∨ class2015_fix1 p = 4 then 1 else 0

def forestclaireseche (p : Pix) : Nat :=
  if forest_to_split p = 1 ∧ claire p = 1 then 1 else 0

def forestdenseseche (p : Pix) : Nat :=
  if forest_to_split p = 1 ∧ dense p = 1 then 1 else 0

def class2015_fix2 (p : Pix) : Nat :=
  if forestclaireseche p = 1 then 4 else class2015_fix1 p

def class2015_fix3 (p : Pix) : Nat :=
  if forestdenseseche p = 1 then 2 else class2015_fix2 p

/-! Stage 5: fix montane forest based on elevation. Both masks test the
stage-3 output class2015_fix1, as the script does. -/

def montane (p : Pix) : Nat :=
  if 1750 ≤ p.dem ∧ class2015_fix1 p = 1 then 1 else 0

def submontane (p : Pix) : Nat :=
  if p.dem < 1750 ∧ (1100 ≤ p.dem ∧ class2015_fix1 p = 1) then 1 else 0

def class2015_fix4 (p : Pix) : Nat :=
  if submontane p = 1 then 5 else class2015_fix3 p

def class2015_fix5 (p : Pix) : Nat :=
  if montane p = 1 then 6 else class2015_fix4 p

/-! Stage 6: fix mangroves with elevation and the dilated ESA buffer. -/

def mangarea (p : Pix) : Nat :=
  if p.mang_buffer ≠ 0 then
    (if p.dem ≤ 35 ∧ class2015_fix5 p ≤ 12 then 1 else 0)
  else 0

def nomang (p : Pix) : Nat :=
  if 35 ≤ p.dem ∨ p.countries_raster = 3 then 1 else 0

def mangadd (p : Pix) : Nat :=
  if p.mangroves = 1 ∧ mangarea p = 1 then 1 else 0

def mangfix (p : Pix) : Nat :=
  if p.mangroves = 1 ∧ nomang p = 1 then 1 else 0

def class2015_fix6 (p : Pix) : Nat :=
  if mangadd p = 1 then 7 else class2015_fix5 p

def class2015_fix7 (p : Pix) : Nat :=
  if mangfix p = 1 then 8 else class2015_fix6 p

/-! Stage 7: fix water and aquatic grasslands with the JRC data. -/

def seasonal (p : Pix) : Nat := if p.water_area = 2 then 1 else 0

def permanent (p : Pix) : Nat := if p.water_area = 3 then 1 else 0

def prairie (p : Pix) : Nat :=
  if seasonal p = 1 ∧ (class2015_fix7 p ≠ 14 ∧ class2015_fix7 p ≠ 18) then 1 else 0

def class2015_fixwater1 (p : Pix) : Nat :=
  if prairie p = 1 then 14 else class2015_fix7 p

def class2015_fixwater (p : Pix) : Nat :=
  if permanent p = 1 then 18 else class2015_fixwater1 p

/-! Stage 8: add the Gabon and Annobon data. -/

def not_gabon (p : Pix) : Nat := if p.countries_raster ≠ 6 then 1 else 0

def holes (p : Pix) : Nat :=
  if not_gabon p ≠ 1 ∧ p.gabon_os = 128 then 1 else 0

def class2015_wgab (p : Pix) : Nat :=
  if not_gabon p ≠ 1 then p.gabon_os else class2015_fixwater p

def class2015_clean (p : Pix) : Nat :=
  if holes p = 1 then class2015_fixwater p else class2015_wgab p

def anno_area (p : Pix) : Nat := if 0 < p.annobon then 1 else 0

def class2015_final (p : Pix) : Nat :=
  if 0 < anno_area p then p.annobon else class2015_clean p

/-! Stage 9: forest definitions for Cameroon and the Central African
Republic. The fnf remap has no unmask, so a class outside its lookup stays
masked, and where never fills a masked base pixel. -/

def car_cam (p : Pix) : Nat :=
  if p.countries_raster = 2 ∨ p.countries_raster = 3 then 1 else 0

def caf_sav (p : Pix) : Nat :=
  if car_cam p = 1 ∧ class2015_final p = 12 then 1 else 0

def fnf_from : List Nat := [1, 2, 3, 4, 5, 6, 7, 8, 9, 11, 12, 13, 14, 15, 16, 17, 18]

def fnf_to : List Nat := [1, 1, 1, 1, 1, 1, 1, 1, 1, 1, 2, 2, 2, 2, 2, 2, 3]

def fnf (p : Pix) : Option Nat := eeRemap fnf_from fnf_to (class2015_final p)

def fnf_final (p : Pix) : Option Nat :=
  (fnf p).map (fun v => if caf_sav p = 1 then 1 else v)

/-! Concrete pixels used by the witnesses and counterexamples below. px0 is
a plain inland pixel: raw class 1, GHS value 1 (not built), tree cover 50,
elevation 10 m, country 1, no water, no Annobon data, no mangrove. -/

def px0 : Pix :=
  { class2015 := 1, class2015_no_alos := 1, GHSbuiltup := 1, treecover2015 := 50,
    dem := 10, gabon_os := 5, countries_raster := 1, water_area := 1,
    annobon := 0, mangroves := 1, mang_buffer := 0 }

/-- Mangrove-flagged pixel at 100 m elevation, outside the designated country. -/
def pxC1 : Pix := { px0 with dem := 100 }

/-- Mangrove-flagged lowland pixel in country 2, outside the ESA buffer; its
raw class 9 recodes to DDD class 12. -/
def cexpxC1 : Pix :=
  { px0 with class2015 := 9, class2015_no_alos := 9, countries_raster := 2 }

/-- Lowland pixel of DDD class 12 inside the ESA buffer, in country 3. -/
def cexpxC2 : Pix :=
  { px0 with class2015 := 9, countries_raster := 3, mang_buffer := 1 }

/-- Lowland pixel inside the ESA buffer, away from country 3 and from 35 m. -/
def pxC2 : Pix := { px0 with mang_buffer := 1 }

/-- Pixel with JRC waterClass 3 (permanent water). -/
def pxC4 : Pix := { px0 with water_area := 3 }

/-- Pixel with raw class 5, inside the remap lookup. -/
def pxC5a : Pix := { px0 with class2015 := 5 }

/-- Pixel with raw class 99, outside the remap lookup. -/
def pxC5b : Pix := { px0 with class2015 := 99 }

/-- Pixel whose ALOS classification is unclassified (raw 20 recodes to 0)
while the no-ALOS run gives raw class 3. -/
def pxC6 : Pix := { px0 with class2015 := 20, class2015_no_alos := 3 }

/-- Pixel of final class 12 in country 2. -/
def pxC7 : Pix := { px0 with class2015 := 9, countries_raster := 2 }

/-- Base-forest pixel at 1800 m elevation with 80 percent tree cover. -/
def pxC8 : Pix := { px0 with dem := 1800, treecover2015 := 80 }

/-- Pixel of DDD class 12, outside the two split codes. -/
def pxC9 : Pix := { px0 with class2015 := 9 }

/-- Mangrove-flagged pixel at exactly 35 m elevation inside the ESA buffer. -/
def pxC10 : Pix := { px0 with dem := 35, mang_buffer := 1 }

/-! Generic facts about the Earth Engine remap operator. -/

theorem eeRemap_eq_none (f t : List Nat) (v : Nat) (h : v ∉ f) :
    eeRemap f t v = none := by
  induction f generalizing t with
  | nil => cases t <;> rfl
  | cons a f ih =>
    cases t with
    | nil => rfl
    | cons b t =>
      have hva : v ≠ a := fun hv => h (hv ▸ List.mem_cons_self a f)
      have hvf : v ∉ f := fun hv => h (List.mem_cons_of_mem a hv)
      simp only [eeRemap, if_neg hva]
      exact ih t hvf

theorem eeRemap_mem (f t : List Nat) (v b : Nat) (h : eeRemap f t v = some b) :
    b ∈ t := by
  induction f generalizing t with
  | nil => simp [eeRemap] at h
  | cons a f ih =>
    cases t with
    | nil => simp [eeRemap] at h
    | cons c t =>
      simp only [eeRemap] at h
      by_cases hva : v = a
      · rw [if_pos hva] at h
        exact (Option.some_inj.mp h) ▸ List.mem_cons_self c t
      · rw [if_neg hva] at h
        exact List.mem_cons_of_mem c (ih t h)

theorem eeRemap_zip (f t : List Nat) (a b v : Nat) (hnd : f.Nodup)
    (hm : (a, b) ∈ f.zip t) (hv : v = a) : eeRemap f t v = some b := by
  induction f generalizing t with
  | nil => simp at hm
  | cons a1 f ih =>
    cases t with
    | nil => simp at hm
    | cons b1 t =>
      rcases List.mem_cons.mp hm with hh | hh
      · obtain ⟨ha, hb⟩ := Prod.mk.injEq .. ▸ hh
        simp only [eeRemap]
        rw [if_pos (hv.trans ha)]
        exact congrArg some hb.symm
      · have ha1 : a ∈ f := (List.of_mem_zip hh).1
        have hne : v ≠ a1 := by
          intro hva1
          exact (List.nodup_cons.mp hnd).1 ((hva1 ▸ hv.symm) ▸ ha1)
        simp only [eeRemap, if_neg hne]
        exact ih t (List.nodup_cons.mp hnd).2 hh

/-- Claim C1, counterexample. The claim states that a pixel with mangrove
indicator 1 lying in the designated pair of countries (codes 2 and 3, the
pair designated in car_cam) ends stage 6 as swamp forest (8). The pixel
cexpxC1 has indicator 1 and country code 2 at 10 m elevation, yet its
stage-6 class is 12, not 8: the script only tests countries_raster eq 3. -/
theorem claim_C1_cex :
    cexpxC1.mangroves = 1 ∧
      (35 < cexpxC1.dem ∨ cexpxC1.countries_raster = 2 ∨ cexpxC1.countries_raster = 3) ∧
      class2015_fix7 cexpxC1 ≠ 8 := by
  refine ⟨rfl, Or.inr (Or.inl rfl), ?_⟩
  decide

/-- Claim C1, amended: for every pixel whose internal mangrove indicator is
1 and whose elevation exceeds 35 m or whose country code is 3 (a single
designated country, not a pair), the stage-6 output class2015_fix7 is swamp
forest (8). -/
theorem claim_C1_amended (p : Pix) (hm : p.mangroves = 1)
    (he : 35 < p.dem ∨ p.countries_raster = 3) : class2015_fix7 p = 8 := by
  have hn : nomang p = 1 := by
    unfold nomang
    split_ifs with h
    · rfl
    · omega
  simp [class2015_fix7, mangfix, hm, hn]

/-- Claim C1, witness for the amended theorem at the concrete pixel pxC1. -/
theorem claim_C1_witness :
    pxC1.mangroves = 1 ∧ 35 < pxC1.dem ∧ class2015_fix7 pxC1 = 8 :=
  ⟨rfl, by decide, claim_C1_amended pxC1 rfl (Or.inl (by decide))⟩

/-- Claim C2, counterexample. The addable predicate mangarea and the
erroneous predicate nomang both hold at cexpxC2: a pixel at 10 m elevation,
DDD class 12, inside the dilated buffer, in country 3. They are not
disjoint. -/
theorem claim_C2_cex : mangarea cexpxC2 = 1 ∧ nomang cexpxC2 = 1 := by
  decide

/-- Claim C2, amended: away from country 3 and from elevation exactly 35 m,
the addable predicate mangarea and the erroneous predicate nomang are
disjoint: at most one of the two holds at any such pixel. -/
theorem claim_C2_amended (p : Pix) (h35 : p.dem ≠ 35)
    (hc : p.countries_raster ≠ 3) : ¬(mangarea p = 1 ∧ nomang p = 1) := by
  rintro ⟨h1, h2⟩
  unfold mangarea at h1
  unfold nomang at h2
  split_ifs at h1 h2
  omega

/-- Claim C2, witness for the amended theorem at the concrete pixel pxC2. -/
theorem claim_C2_witness :
    pxC2.dem ≠ 35 ∧ pxC2.countries_raster ≠ 3 ∧
      ¬(mangarea pxC2 = 1 ∧ nomang pxC2 = 1) :=
  ⟨by decide, by decide, claim_C2_amended pxC2 (by decide) (by decide)⟩

/-- Claim C3: the stage-8 output equals the regional classification outside
the Gabon footprint (country code 6); inside the footprint it equals the
national dataset except at its no-data sentinel 128, where it falls back to
the regional value; and wherever the Annobon presence indicator is positive
the Annobon class value overrides everything computed so far. -/
theorem claim_C3_mosaic (p : Pix) :
    class2015_final p =
      if 0 < p.annobon then p.annobon
      else if p.countries_raster = 6 then
        (if p.gabon_os = 128 then class2015_fixwater p else p.gabon_os)
      else class2015_fixwater p := by
  by_cases ha : 0 < p.annobon
  · simp [class2015_final, anno_area, ha]
  · by_cases hg : p.countries_raster = 6
    · by_cases hh : p.gabon_os = 128
      · simp [class2015_final, anno_area, class2015_clean, holes,
          class2015_wgab, not_gabon, ha, hg, hh]
      · simp [class2015_final, anno_area, class2015_clean, holes,
          class2015_wgab, not_gabon, ha, hg, hh]
    · simp [class2015_final, anno_area, class2015_clean, holes,
        class2015_wgab, not_gabon, ha, hg]

/-- Claim C4: every pixel whose permanent-water mask is 1 ends stage 7 with
the water class 18, whatever its seasonal flag and its class before the
stage. -/
theorem claim_C4_permanent (p : Pix) (h : permanent p = 1) :
    class2015_fixwater p = 18 := by
  simp [class2015_fixwater, h]

/-- Claim C4, witness at the concrete pixel pxC4. -/
theorem claim_C4_witness : permanent pxC4 = 1 ∧ class2015_fixwater pxC4 = 18 :=
  ⟨by decide, claim_C4_permanent pxC4 (by decide)⟩

/-- Claim C5: the stage-1 remap output is an element of reclass_values or 0;
a pixel whose input equals the i-th entry of class_values becomes the i-th
entry of reclass_values; and a pixel whose input is not present in
class_values becomes 0. -/
theorem claim_C5_remapper (p : Pix) :
    (classDDD p = 0 ∨ classDDD p ∈ reclass_values) ∧
      (∀ a b, (a, b) ∈ class_values.zip reclass_values →
        p.class2015 = a → classDDD p = b) ∧
      (p.class2015 ∉ class_values → classDDD p = 0) := by
  refine ⟨?_, ?_, ?_⟩
  · cases h : eeRemap class_values reclass_values p.class2015 with
    | none => exact Or.inl (by simp [classDDD, eeRemapU, h])
    | some b =>
      refine Or.inr ?_
      have := eeRemap_mem class_values reclass_values p.class2015 b h
      simpa [classDDD, eeRemapU, h] using this
  · intro a b hm hv
    have := eeRemap_zip class_values reclass_values a b p.class2015
      (by decide) hm hv
    simp [classDDD, eeRemapU, this]
  · intro h
    have := eeRemap_eq_none class_values reclass_values p.class2015 h
    simp [classDDD, eeRemapU, this]

/-- Claim C5, witness: raw class 5 recodes to 7 through the fifth lookup
pair, and raw class 99, absent from the lookup, recodes to 0. -/
theorem claim_C5_witness :
    ((5, 7) ∈ class_values.zip reclass_values ∧ classDDD pxC5a = 7) ∧
      (pxC5b.class2015 ∉ class_values ∧ classDDD pxC5b = 0) :=
  ⟨⟨by decide, (claim_C5_remapper pxC5a).2.1 5 7 (by decide) (by decide)⟩,
   ⟨by decide, (claim_C5_remapper pxC5b).2.2 (by decide)⟩⟩

/-- Claim C6: the gap filler keeps the primary classification wherever it is
nonzero, takes the no-ALOS secondary wherever the primary is 0, and is the
identity when the secondary agrees with the primary. -/
theorem claim_C6_gapfill (p : Pix) :
    (classDDD p ≠ 0 → classDDD_fill p = classDDD p) ∧
      (classDDD p = 0 → classDDD_fill p = classDDD_no_alos p) ∧
      (classDDD_no_alos p = classDDD p → classDDD_fill p = classDDD p) := by
  refine ⟨fun h => ?_, fun h => ?_, fun h => ?_⟩ <;>
    · unfold classDDD_fill alosholes
      split_ifs <;> omega

/-- Claim C6, witness: the fill keeps the classified pixel px0 and fills the
unclassified pixel pxC6 from the no-ALOS run. -/
theorem claim_C6_witness :
    (classDDD px0 ≠ 0 ∧ classDDD_fill px0 = classDDD px0) ∧
      (classDDD pxC6 = 0 ∧ classDDD_fill pxC6 = classDDD_no_alos pxC6) :=
  ⟨⟨by decide, (claim_C6_gapfill px0).1 (by decide)⟩,
   ⟨by decide, (claim_C6_gapfill pxC6).2.1 (by decide)⟩⟩

/-- Claim C7: at every pixel whose country code is 2 or 3 and whose class
before the forest/non-forest remap is shrub savanna (12), the final 3-class
output is forest (1), although the default lookup sends 12 to non-forest
(2). -/
theorem claim_C7_override (p : Pix)
    (hc : p.countries_raster = 2 ∨ p.countries_raster = 3)
    (h12 : class2015_final p = 12) :
    fnf_final p = some 1 ∧ eeRemap fnf_from fnf_to 12 = some 2 := by
  have hcs : caf_sav p = 1 := by
    unfold caf_sav car_cam
    rcases hc with h | h <;> simp [h, h12]
  have h2 : fnf p = some 2 := by
    unfold fnf
    rw [h12]
    decide
  refine ⟨?_, by decide⟩
  unfold fnf_final
  rw [h2]
  simp [hcs]

/-- Claim C7, witness at the concrete pixel pxC7. -/
theorem claim_C7_witness :
    pxC7.countries_raster = 2 ∧ class2015_final pxC7 = 12 ∧
      fnf_final pxC7 = some 1 :=
  ⟨rfl, by decide,
    (claim_C7_override pxC7 (Or.inl rfl) (by decide)).1⟩

/-- Claim C8: every pixel whose stage-3 class is the base forest code 1,
with elevation 1800 m and tree cover 80 percent, leaves stages 4 and 5 with
the montane forest class 6. -/
theorem claim_C8_montane (p : Pix) (h1 : class2015_fix1 p = 1)
    (hd : p.dem = 1800) (_ht : p.treecover2015 = 80) :
    class2015_fix5 p = 6 := by
  have hf : forest_to_split p = 0 := by simp [forest_to_split, h1]
  have h2 : forestclaireseche p = 0 := by simp [forestclaireseche, hf]
  have h3 : forestdenseseche p = 0 := by simp [forestdenseseche, hf]
  have hs : submontane p = 0 := by simp [submontane, hd]
  have hm : montane p = 1 := by simp [montane, h1, hd]
  simp [class2015_fix5, class2015_fix4, class2015_fix3, class2015_fix2,
    hm, hs, h2, h3]

/-- Claim C8, witness at the concrete pixel pxC8. -/
theorem claim_C8_witness :
    class2015_fix1 pxC8 = 1 ∧ pxC8.dem = 1800 ∧ pxC8.treecover2015 = 80 ∧
      class2015_fix5 pxC8 = 6 :=
  ⟨by decide, rfl, rfl, claim_C8_montane pxC8 (by decide) rfl rfl⟩

/-- Claim C9: the canopy density split leaves every pixel whose stage-3
class is neither 2 nor 4 unchanged, for any tree-cover value. -/
theorem claim_C9_frame (p : Pix) (h2 : class2015_fix1 p ≠ 2)
    (h4 : class2015_fix1 p ≠ 4) : class2015_fix3 p = class2015_fix1 p := by
  have hf : forest_to_split p = 0 := by simp [forest_to_split, h2, h4]
  simp [class2015_fix3, class2015_fix2, forestdenseseche, forestclaireseche, hf]

/-- Claim C9, witness at the concrete pixel pxC9, whose stage-3 class is 12. -/
theorem claim_C9_witness :
    class2015_fix1 pxC9 ≠ 2 ∧ class2015_fix1 pxC9 ≠ 4 ∧
      class2015_fix3 pxC9 = class2015_fix1 pxC9 :=
  ⟨by decide, by decide, claim_C9_frame pxC9 (by decide) (by decide)⟩

/-- Claim C10: a pixel at elevation exactly 35 m with mangrove indicator 1,
stage-5 class at most 12 and inside the dilated buffer satisfies both the
addable predicate mangarea and the erroneous predicate nomang, and because
the erroneous fix runs second it ends stage 6 as swamp forest (8). -/
theorem claim_C10_boundary (p : Pix) (hd : p.dem = 35) (hm : p.mangroves = 1)
    (hc : class2015_fix5 p ≤ 12) (hb : p.mang_buffer ≠ 0) :
    mangarea p = 1 ∧ nomang p = 1 ∧ class2015_fix7 p = 8 := by
  have ha : mangarea p = 1 := by simp [mangarea, hd, hc, hb]
  have hn : nomang p = 1 := by simp [nomang, hd]
  exact ⟨ha, hn, by simp [class2015_fix7, mangfix, hm, hn]⟩

/-- Claim C10, witness at the concrete pixel pxC10. -/
theorem claim_C10_witness :
    pxC10.dem = 35 ∧ pxC10.mangroves = 1 ∧ class2015_fix5 pxC10 ≤ 12 ∧
      pxC10.mang_buffer ≠ 0 ∧ class2015_fix7 pxC10 = 8 :=
  ⟨rfl, rfl, by decide, by decide,
    (claim_C10_boundary pxC10 rfl rfl (by decide) (by decide)).2.2⟩

end CAFI
